import Mathlib

/-!
Verification of the reconciliation core of `consul-external-dns`
(`src/hetzner_dns.rs`): a shallow embedding of the DNS-provider client
(list / create / update / delete against the Hetzner DNS API) and of the
reconciler `update_or_create_dns_record`, together with theorems about the
reconciliation decision logic, failure propagation, and the wire-level
status handling.

The remote HTTP world is modelled by passing in the response each wire
call would receive (`Except Unit HttpResponse`: a transport failure or a
status code plus an abstracted JSON body).  Each embedded wire function
consumes such a response exactly as the Rust function consumes the
outcome of `send()`.  The reconciler is additionally instrumented to
return the list of provider calls it issued, in order.
-/

namespace ConsulExternalDns

-- Decidable equality for `Except`, needed to evaluate concrete runs.
deriving instance DecidableEq for Except

/-- Modelled from the spec: configuration consumed by the provider client
(`config.rs` is not part of the analysed sources): API base URL, zone
identifier, credential token — the three fields `hetzner_dns.rs` reads. -/
structure HetznerConfig where
  api_url : String
  dns_zone_id : String
  dns_token : String
deriving DecidableEq, Repr

/-- Modelled from the spec: the representation the provider holds of an existing
record (`DnsRecord` of `dns_trait.rs`, not part of the analysed sources):
`id`, `zone_id`, `type_`, `name`, `value`, `ttl` — exactly the fields
`hetzner_dns.rs` constructs and compares. -/
structure DnsRecord where
  id : String
  zone_id : String
  type_ : String
  name : String
  value : String
  ttl : Nat
deriving DecidableEq, Repr

/-- Modelled from the spec: provider input for record creation
(`DnsRecordCreate` of `dns_trait.rs`): like `DnsRecord` but without the
provider-assigned `id`. -/
structure DnsRecordCreate where
  zone_id : String
  type_ : String
  name : String
  value : String
  ttl : Nat
deriving DecidableEq, Repr

/-- Modelled from the spec: the desired record coming from the registry
(`consul::DnsRecord`): hostname, record type, value, ttl. -/
structure ConsulDnsRecord where
  hostname : String
  type_ : String
  value : String
  ttl : Nat
deriving DecidableEq, Repr

/-- Uniform error type for the wire calls, mirroring how `reqwest::Error`
values arise in `hetzner_dns.rs`: a transport failure, a non-success
status surfaced by `error_for_status`, a JSON-decode failure, or a
request-builder failure (an invalid header value detected at `send`). -/
inductive ProviderError
  | transport
  | rejected (status : Nat)
  | decode
  | builder
deriving DecidableEq, Repr

/-- Abstraction of a response body: it either parses as the
`RecordsWrapper` shape (`\x7b "records": [...] \x7d`), as the
`RecordResponse` shape (`\x7b "record": ... \x7d`), or as neither. -/
inductive Body
  | recordsJson (records : List DnsRecord)
  | recordJson (record : DnsRecord)
  | other
deriving DecidableEq, Repr

/-- An HTTP response that reached the client: a status code and a body. -/
structure HttpResponse where
  status : Nat
  body : Body
deriving DecidableEq, Repr

/-- Status test used by `error_for_status` in reqwest: a client or
server error is a status in `400..=599`. -/
def is_client_or_server_error (status : Nat) : Bool :=
  400 ≤ status && status ≤ 599

/-- Embedding of `error_for_status` on a reqwest response: turn a client-
or server-error status into an error, pass any other response through. -/
def error_for_status (r : HttpResponse) : Except ProviderError HttpResponse :=
  if is_client_or_server_error r.status then
    Except.error (ProviderError.rejected r.status)
  else
    Except.ok r

/-- Validity of one character inside an HTTP header value, as checked by
`http::HeaderValue::from_str` (byte ≥ 32 and ≠ 127, or tab). -/
def validHeaderValueChar (c : Char) : Bool :=
  (32 ≤ c.toNat && c.toNat != 127) || c.toNat == 9

/-- Whether `HeaderValue::from_str` accepts the string. -/
def validHeaderValue (s : String) : Bool :=
  s.data.all validHeaderValueChar

/-- Outcome of `list_dns_records`: the Rust function calls
`HeaderValue::from_str(&config.dns_token).unwrap()`, so an invalid token
panics before any request is made; otherwise it completes with a result. -/
inductive ListOutcome
  | panicked
  | completed (result : Except ProviderError (List DnsRecord))
deriving DecidableEq, Repr

/-- Embedding of `list_dns_records` (`hetzner_dns.rs` lines 92–113):
build the `Auth-API-Token` header with `HeaderValue::from_str(..).unwrap()`
(panic on an invalid token), send the GET, run `error_for_status`, and on
success decode the body as `RecordsWrapper`. -/
def list_dns_records (hetzner_config : HetznerConfig)
    (resp : Except Unit HttpResponse) : ListOutcome :=
  if validHeaderValue hetzner_config.dns_token then
    match resp with
    | Except.error _ => ListOutcome.completed (Except.error ProviderError.transport)
    | Except.ok response =>
      match error_for_status response with
      | Except.ok res =>
        match res.body with
        | Body.recordsJson records => ListOutcome.completed (Except.ok records)
        | _ => ListOutcome.completed (Except.error ProviderError.decode)
      | Except.error err => ListOutcome.completed (Except.error err)
  else
    ListOutcome.panicked

/-- Embedding of `update_dns_record` (`hetzner_dns.rs` lines 115–130):
attach the token with `.header(..)` (an invalid token becomes a builder
error at `send`, not a panic), PUT the record, and decode the body as
`RecordResponse`.  Note: the Rust function performs NO
`error_for_status` check — the status code is never inspected. -/
def update_dns_record (hetzner_config : HetznerConfig) (record : DnsRecord)
    (resp : Except Unit HttpResponse) : Except ProviderError DnsRecord :=
  if validHeaderValue hetzner_config.dns_token then
    match resp with
    | Except.error _ => Except.error ProviderError.transport
    | Except.ok res =>
      match res.body with
      | Body.recordJson r => Except.ok r
      | _ => Except.error ProviderError.decode
  else
    Except.error ProviderError.builder

/-- Embedding of `create_dns_record` (`hetzner_dns.rs` lines 132–148):
attach the token with `.header(..)`, POST the creation request, run
`error_for_status`, and on success decode the body as `RecordResponse`. -/
def create_dns_record (hetzner_config : HetznerConfig)
    (record_create : DnsRecordCreate) (resp : Except Unit HttpResponse) :
    Except ProviderError DnsRecord :=
  if validHeaderValue hetzner_config.dns_token then
    match resp with
    | Except.error _ => Except.error ProviderError.transport
    | Except.ok res =>
      match error_for_status res with
      | Except.error err => Except.error err
      | Except.ok res2 =>
        match res2.body with
        | Body.recordJson r => Except.ok r
        | _ => Except.error ProviderError.decode
  else
    Except.error ProviderError.builder

/-- Embedding of `delete_dns_record` (`hetzner_dns.rs` lines 79–89):
attach the token with `.header(..)`, DELETE by id, run
`error_for_status`; success is signalled by the status alone. -/
def delete_dns_record (hetzner_config : HetznerConfig) (record_id : String)
    (resp : Except Unit HttpResponse) : Except ProviderError Unit :=
  if validHeaderValue hetzner_config.dns_token then
    match resp with
    | Except.error _ => Except.error ProviderError.transport
    | Except.ok res =>
      match error_for_status res with
      | Except.error err => Except.error err
      | Except.ok _ => Except.ok ()
  else
    Except.error ProviderError.builder

/-- One provider call issued by the reconciler, recorded for the trace. -/
inductive Call
  | list
  | update (record : DnsRecord)
  | create (request : DnsRecordCreate)
  | delete (id : String)
deriving DecidableEq, Repr

/-- The environment a reconcile run executes against: the HTTP response
each wire call would receive (update/create keyed by the submitted
payload, since the reconciler computes it before sending). -/
structure WireEnv where
  listResp : Except Unit HttpResponse
  updateResp : DnsRecord → Except Unit HttpResponse
  createResp : DnsRecordCreate → Except Unit HttpResponse

/-- Outcome of a reconcile run: a panic propagated from
`list_dns_records`, or a completed `Result`. -/
inductive ReconcileOutcome
  | panicked
  | completed (result : Except ProviderError DnsRecord)
deriving DecidableEq, Repr

/-- The match step of the reconciler (`hetzner_dns.rs` lines 42–44):
the first existing record whose `name` and `type_` equal the `hostname`
and `type_` of the desired record, by exact string equality. -/
def matchedRecord (dns_record : ConsulDnsRecord) (existing_records : List DnsRecord) :
    Option DnsRecord :=
  existing_records.find? fun record =>
    record.name == dns_record.hostname && record.type_ == dns_record.type_

/-- Embedding of `update_or_create_dns_record` (`hetzner_dns.rs` lines
30–77), instrumented with the trace of provider calls it issues: list the
records of the zone (propagating failure), find the first `(name, type)` match,
then either no-op (value and ttl already equal), update (preserving `id`
and `zone_id`, other fields from the desired record), or create (from the
desired record and the configured zone). -/
def update_or_create_dns_record (config : HetznerConfig) (env : WireEnv)
    (dns_record : ConsulDnsRecord) : ReconcileOutcome × List Call :=
  match list_dns_records config env.listResp with
  | ListOutcome.panicked => (ReconcileOutcome.panicked, [Call.list])
  | ListOutcome.completed (Except.error e) =>
      (ReconcileOutcome.completed (Except.error e), [Call.list])
  | ListOutcome.completed (Except.ok existing_records) =>
    match matchedRecord dns_record existing_records with
    | some record =>
      if record.value != dns_record.value || record.ttl != dns_record.ttl then
        let updated_record : DnsRecord :=
          { id := record.id
            zone_id := record.zone_id
            type_ := dns_record.type_
            name := dns_record.hostname
            value := dns_record.value
            ttl := dns_record.ttl }
        (ReconcileOutcome.completed
          (update_dns_record config updated_record (env.updateResp updated_record)),
         [Call.list, Call.update updated_record])
      else
        (ReconcileOutcome.completed (Except.ok record), [Call.list])
    | none =>
      let new_record : DnsRecordCreate :=
        { zone_id := config.dns_zone_id
          type_ := dns_record.type_
          name := dns_record.hostname
          value := dns_record.value
          ttl := dns_record.ttl }
      (ReconcileOutcome.completed
        (create_dns_record config new_record (env.createResp new_record)),
       [Call.list, Call.create new_record])

/-- An environment backed by a provider holding record set `s` whose
remote calls all succeed: list returns `s`, update echoes the submitted
record, create returns the request with the fresh id `fid` assigned. -/
def faithfulEnv (s : List DnsRecord) (fid : String) : WireEnv where
  listResp := Except.ok ⟨200, Body.recordsJson s⟩
  updateResp := fun u => Except.ok ⟨200, Body.recordJson u⟩
  createResp := fun c =>
    Except.ok ⟨200, Body.recordJson ⟨fid, c.zone_id, c.type_, c.name, c.value, c.ttl⟩⟩

/-- The provider state reached from `s` after the calls in a trace are
applied faithfully: update replaces every record carrying the submitted
id, create appends the new record with fresh id `fid`, delete removes by
id; listing does not change state. -/
def applyCalls (fid : String) (s : List DnsRecord) : List Call → List DnsRecord
  | [] => s
  | Call.list :: rest => applyCalls fid s rest
  | Call.update u :: rest =>
      applyCalls fid (s.map fun x => if x.id == u.id then u else x) rest
  | Call.create c :: rest =>
      applyCalls fid (s ++ [⟨fid, c.zone_id, c.type_, c.name, c.value, c.ttl⟩]) rest
  | Call.delete i :: rest => applyCalls fid (s.filter fun x => x.id != i) rest

/- Concrete values used by witnesses and counterexamples. -/

/-- A concrete provider configuration. -/
def cfgEx : HetznerConfig := ⟨"https://dns.hetzner.com/api/v1", "zone1", "token"⟩

/-- A concrete configuration whose token holds a newline, which is not a
valid HTTP header value byte. -/
def cfgBad : HetznerConfig := ⟨"https://dns.hetzner.com/api/v1", "zone1", "bad\ntoken"⟩

/-- A concrete desired record. -/
def dEx : ConsulDnsRecord := ⟨"app.example.com", "A", "1.2.3.4", 300⟩

/-- An existing record matching `dEx` on `(name, type)` with a stale value. -/
def rStale : DnsRecord := ⟨"1", "z", "A", "app.example.com", "9.9.9.9", 300⟩

/-- An existing record agreeing with `dEx` on name, type, value and ttl. -/
def rGood : DnsRecord := ⟨"2", "z", "A", "app.example.com", "1.2.3.4", 300⟩

/-- An environment whose list request fails at the transport level. -/
def envFail : WireEnv :=
  ⟨Except.error (), fun _ => Except.error (), fun _ => Except.error ()⟩

/-- Listing against a faithful provider with a valid token succeeds and
returns its record set. -/
lemma list_dns_records_faithful (cfg : HetznerConfig) (s : List DnsRecord)
    (fid : String) (hv : validHeaderValue cfg.dns_token = true) :
    list_dns_records cfg (faithfulEnv s fid).listResp
      = ListOutcome.completed (Except.ok s) := by
  simp [list_dns_records, faithfulEnv, error_for_status, is_client_or_server_error, hv]

/- ## Theorems about the claims -/

/-- C1 (amended): if listing succeeds and the FIRST existing record whose
`(name, type)` matches the desired record also has equal `value` and
`ttl`, then reconciliation issues no mutating call (only the list call)
and returns that record unchanged. -/
theorem noop_when_first_match_agrees (cfg : HetznerConfig) (env : WireEnv)
    (d : ConsulDnsRecord) (records : List DnsRecord) (r : DnsRecord)
    (hl : list_dns_records cfg env.listResp = ListOutcome.completed (Except.ok records))
    (hm : matchedRecord d records = some r)
    (hval : r.value = d.value) (httl : r.ttl = d.ttl) :
    (update_or_create_dns_record cfg env d).1
        = ReconcileOutcome.completed (Except.ok r) ∧
    (update_or_create_dns_record cfg env d).2 = [Call.list] := by
  unfold update_or_create_dns_record
  rw [hl]
  dsimp only
  rw [hm]
  simp [hval, httl]

/-- Witness for C1 (amended) at a concrete input. -/
theorem noop_when_first_match_agrees_witness :
    (update_or_create_dns_record cfgEx (faithfulEnv [rGood] "9") dEx).1
        = ReconcileOutcome.completed (Except.ok rGood) ∧
    (update_or_create_dns_record cfgEx (faithfulEnv [rGood] "9") dEx).2 = [Call.list] :=
  noop_when_first_match_agrees cfgEx (faithfulEnv [rGood] "9") dEx [rGood] rGood
    (list_dns_records_faithful cfgEx [rGood] "9" rfl) rfl rfl rfl

/-- C1 (counterexample): the record list contains a record agreeing with
the desired record on name, type, value and ttl, yet reconciliation
performs an update (an earlier record matches `(name, type)` with a stale
value) and does not return the agreeing record. -/
theorem noop_existential_reading_fails :
    rGood ∈ [rStale, rGood] ∧
    rGood.name = dEx.hostname ∧ rGood.type_ = dEx.type_ ∧
    rGood.value = dEx.value ∧ rGood.ttl = dEx.ttl ∧
    (update_or_create_dns_record cfgEx (faithfulEnv [rStale, rGood] "9") dEx).2
      = [Call.list,
         Call.update ⟨"1", "z", "A", "app.example.com", "1.2.3.4", 300⟩] ∧
    (update_or_create_dns_record cfgEx (faithfulEnv [rStale, rGood] "9") dEx).1
      ≠ ReconcileOutcome.completed (Except.ok rGood) := by
  decide

/-- C2 (amended): if listing succeeds and the FIRST existing record whose
`(name, type)` matches the desired record differs from it in `value` or
`ttl`, then reconciliation issues exactly one update call, whose submitted
record keeps `id` and `zone_id` of the matched record and takes `type_`,
`name`, `value`, `ttl` from the desired record, and the update result is
returned unchanged. -/
theorem update_when_first_match_differs (cfg : HetznerConfig) (env : WireEnv)
    (d : ConsulDnsRecord) (records : List DnsRecord) (r : DnsRecord)
    (hl : list_dns_records cfg env.listResp = ListOutcome.completed (Except.ok records))
    (hm : matchedRecord d records = some r)
    (hne : r.value ≠ d.value ∨ r.ttl ≠ d.ttl) :
    (update_or_create_dns_record cfg env d).2
        = [Call.list, Call.update ⟨r.id, r.zone_id, d.type_, d.hostname, d.value, d.ttl⟩] ∧
    (update_or_create_dns_record cfg env d).1
        = ReconcileOutcome.completed
            (update_dns_record cfg ⟨r.id, r.zone_id, d.type_, d.hostname, d.value, d.ttl⟩
              (env.updateResp ⟨r.id, r.zone_id, d.type_, d.hostname, d.value, d.ttl⟩)) := by
  unfold update_or_create_dns_record
  rw [hl]
  dsimp only
  rw [hm]
  have hc : (r.value != d.value || r.ttl != d.ttl) = true := by
    rcases hne with h | h <;> simp [bne_iff_ne, h]
  dsimp only
  rw [if_pos hc]
  exact ⟨rfl, rfl⟩

/-- Witness for C2 (amended) at a concrete input. -/
theorem update_when_first_match_differs_witness :
    (update_or_create_dns_record cfgEx (faithfulEnv [rStale] "9") dEx).2
        = [Call.list,
           Call.update ⟨rStale.id, rStale.zone_id, dEx.type_, dEx.hostname, dEx.value, dEx.ttl⟩] ∧
    (update_or_create_dns_record cfgEx (faithfulEnv [rStale] "9") dEx).1
        = ReconcileOutcome.completed
            (update_dns_record cfgEx
              ⟨rStale.id, rStale.zone_id, dEx.type_, dEx.hostname, dEx.value, dEx.ttl⟩
              ((faithfulEnv [rStale] "9").updateResp
                ⟨rStale.id, rStale.zone_id, dEx.type_, dEx.hostname, dEx.value, dEx.ttl⟩)) :=
  update_when_first_match_differs cfgEx (faithfulEnv [rStale] "9") dEx [rStale] rStale
    (list_dns_records_faithful cfgEx [rStale] "9" rfl) rfl (Or.inl (by decide))

/-- C2 (counterexample): the record list contains a `(name, type)`-matching
record whose value differs from the desired one, yet reconciliation issues
zero update calls, because an earlier record already agrees. -/
theorem update_existential_reading_fails :
    rStale ∈ [rGood, rStale] ∧
    rStale.name = dEx.hostname ∧ rStale.type_ = dEx.type_ ∧
    rStale.value ≠ dEx.value ∧
    (update_or_create_dns_record cfgEx (faithfulEnv [rGood, rStale] "9") dEx).2
      = [Call.list] := by
  decide

/-- C3: if listing succeeds and no existing record matches the hostname
and type of the desired record, reconciliation issues exactly one create
call carrying the configured zone id and the type, hostname, value and
ttl of the desired record, and returns the create result unchanged. -/
theorem create_when_no_match (cfg : HetznerConfig) (env : WireEnv)
    (d : ConsulDnsRecord) (records : List DnsRecord)
    (hl : list_dns_records cfg env.listResp = ListOutcome.completed (Except.ok records))
    (hnone : ∀ r ∈ records, ¬(r.name = d.hostname ∧ r.type_ = d.type_)) :
    (update_or_create_dns_record cfg env d).2
        = [Call.list, Call.create ⟨cfg.dns_zone_id, d.type_, d.hostname, d.value, d.ttl⟩] ∧
    (update_or_create_dns_record cfg env d).1
        = ReconcileOutcome.completed
            (create_dns_record cfg ⟨cfg.dns_zone_id, d.type_, d.hostname, d.value, d.ttl⟩
              (env.createResp ⟨cfg.dns_zone_id, d.type_, d.hostname, d.value, d.ttl⟩)) := by
  have hm : matchedRecord d records = none := by
    rw [matchedRecord, List.find?_eq_none]
    intro x hx
    simp only [Bool.and_eq_true, beq_iff_eq]
    exact fun hcon => hnone x hx hcon
  unfold update_or_create_dns_record
  rw [hl]
  dsimp only
  rw [hm]
  exact ⟨rfl, rfl⟩

/-- Witness for C3 at a concrete input (empty zone). -/
theorem create_when_no_match_witness :
    (update_or_create_dns_record cfgEx (faithfulEnv [] "9") dEx).2
        = [Call.list,
           Call.create ⟨cfgEx.dns_zone_id, dEx.type_, dEx.hostname, dEx.value, dEx.ttl⟩] ∧
    (update_or_create_dns_record cfgEx (faithfulEnv [] "9") dEx).1
        = ReconcileOutcome.completed
            (create_dns_record cfgEx
              ⟨cfgEx.dns_zone_id, dEx.type_, dEx.hostname, dEx.value, dEx.ttl⟩
              ((faithfulEnv [] "9").createResp
                ⟨cfgEx.dns_zone_id, dEx.type_, dEx.hostname, dEx.value, dEx.ttl⟩)) :=
  create_when_no_match cfgEx (faithfulEnv [] "9") dEx []
    (list_dns_records_faithful cfgEx [] "9" rfl) (by simp)

/-- C5: if listing the records fails, reconciliation returns that very
failure and issues no further provider call; moreover, for any
environment the call trace is the list call alone, or the list call
followed by exactly one mutating call in final position — no call is ever
issued after a failed one. -/
theorem list_failure_propagates (cfg : HetznerConfig) (env : WireEnv)
    (d : ConsulDnsRecord) (e : ProviderError)
    (h : list_dns_records cfg env.listResp = ListOutcome.completed (Except.error e)) :
    ((update_or_create_dns_record cfg env d).1
        = ReconcileOutcome.completed (Except.error e) ∧
     (update_or_create_dns_record cfg env d).2 = [Call.list]) ∧
    ∀ env2 : WireEnv,
      (update_or_create_dns_record cfg env2 d).2 = [Call.list] ∨
      (∃ u, (update_or_create_dns_record cfg env2 d).2 = [Call.list, Call.update u]) ∨
      (∃ c, (update_or_create_dns_record cfg env2 d).2 = [Call.list, Call.create c]) := by
  constructor
  · unfold update_or_create_dns_record
    rw [h]
    exact ⟨rfl, rfl⟩
  · intro env2
    unfold update_or_create_dns_record
    rcases hlist : list_dns_records cfg env2.listResp with _ | res
    · left; rfl
    · rcases res with e2 | recs
      · left; rfl
      · dsimp only
        rcases hm : matchedRecord d recs with _ | r
        · right; right; exact ⟨_, rfl⟩
        · dsimp only
          by_cases hc : (r.value != d.value || r.ttl != d.ttl) = true
          · rw [if_pos hc]
            right; left; exact ⟨_, rfl⟩
          · rw [if_neg hc]
            left; rfl

/-- Witness for C5 at a concrete input (transport failure on list). -/
theorem list_failure_propagates_witness :
    ((update_or_create_dns_record cfgEx envFail dEx).1
        = ReconcileOutcome.completed (Except.error ProviderError.transport) ∧
     (update_or_create_dns_record cfgEx envFail dEx).2 = [Call.list]) ∧
    ∀ env2 : WireEnv,
      (update_or_create_dns_record cfgEx env2 dEx).2 = [Call.list] ∨
      (∃ u, (update_or_create_dns_record cfgEx env2 dEx).2 = [Call.list, Call.update u]) ∨
      (∃ c, (update_or_create_dns_record cfgEx env2 dEx).2 = [Call.list, Call.create c]) :=
  list_failure_propagates cfgEx envFail dEx ProviderError.transport rfl

/-- C6: the record treated as the match is the first record in list order
whose `name` equals the desired hostname and whose `type_` equals the
desired type (records after it are ignored — the tail is arbitrary); any
matched record does satisfy both equalities; and the comparison is exact,
case-sensitive string equality with no trailing-dot normalization, as the
two concrete non-matches show. -/
theorem matched_record_is_first_exact_match :
    (∀ (d : ConsulDnsRecord) (l1 l2 : List DnsRecord) (r : DnsRecord),
        (∀ x ∈ l1, ¬(x.name = d.hostname ∧ x.type_ = d.type_)) →
        r.name = d.hostname → r.type_ = d.type_ →
        matchedRecord d (l1 ++ r :: l2) = some r) ∧
    (∀ (d : ConsulDnsRecord) (records : List DnsRecord) (r : DnsRecord),
        matchedRecord d records = some r →
        r ∈ records ∧ r.name = d.hostname ∧ r.type_ = d.type_) ∧
    matchedRecord ⟨"app.example.com", "A", "1.2.3.4", 300⟩
      [⟨"1", "z", "A", "app.example.com.", "1.2.3.4", 300⟩] = none ∧
    matchedRecord ⟨"app.example.com", "A", "1.2.3.4", 300⟩
      [⟨"1", "z", "A", "App.Example.Com", "1.2.3.4", 300⟩] = none := by
  refine ⟨?_, ?_, by decide, by decide⟩
  · intro d l1 l2 r h1 h2 h3
    have hnone : List.find?
        (fun record => record.name == d.hostname && record.type_ == d.type_) l1 = none := by
      rw [List.find?_eq_none]
      intro x hx
      simp only [Bool.and_eq_true, beq_iff_eq]
      exact fun hcon => h1 x hx hcon
    have hr : (r.name == d.hostname && r.type_ == d.type_) = true := by
      simp [h2, h3]
    rw [matchedRecord, List.find?_append, hnone,
      List.find?_cons_of_pos
        (p := fun record => record.name == d.hostname && record.type_ == d.type_) l2 hr]
    rfl
  · intro d records r h
    refine ⟨List.mem_of_find?_eq_some h, ?_⟩
    have := List.find?_some h
    simpa using this

/-- Witness for C6 at a concrete input. -/
theorem matched_record_is_first_exact_match_witness :
    matchedRecord dEx ([] ++ rStale :: [rGood]) = some rStale :=
  matched_record_is_first_exact_match.1 dEx [] [rGood] rStale (by simp) rfl rfl

/-- C8: with a valid token, deletion fails with a transport error when no
response arrives, fails with a rejection carrying the status on any
client- or server-error status (in particular 404 not-found is an error,
not success), and succeeds exactly on a success status. -/
theorem delete_fails_unless_success_status (cfg : HetznerConfig) (i : String)
    (hv : validHeaderValue cfg.dns_token = true) :
    delete_dns_record cfg i (Except.error ()) = Except.error ProviderError.transport ∧
    (∀ r : HttpResponse, is_client_or_server_error r.status = true →
      delete_dns_record cfg i (Except.ok r) = Except.error (ProviderError.rejected r.status)) ∧
    (∀ r : HttpResponse,
      delete_dns_record cfg i (Except.ok r) = Except.ok () ↔
        is_client_or_server_error r.status = false) := by
  refine ⟨?_, ?_, ?_⟩
  · simp [delete_dns_record, hv]
  · intro r hr
    simp [delete_dns_record, hv, error_for_status, hr]
  · intro r
    by_cases hr : is_client_or_server_error r.status = true
    · simp [delete_dns_record, hv, error_for_status, hr]
    · simp only [Bool.not_eq_true] at hr
      simp [delete_dns_record, hv, error_for_status, hr]

/-- Witness for C8: deleting a record the provider reports as not found
(status 404) yields an error, not success. -/
theorem delete_fails_unless_success_status_witness :
    delete_dns_record cfgEx "1" (Except.ok ⟨404, Body.other⟩)
      = Except.error (ProviderError.rejected 404) :=
  (delete_fails_unless_success_status cfgEx "1" rfl).2.1 ⟨404, Body.other⟩ rfl

/-- Test for a delete call, used to state that reconciliation never
issues one. -/
def isDeleteCall : Call → Bool
  | Call.delete _ => true
  | _ => false

/-- C9: for every configuration, environment and desired record, the
trace of provider calls issued by reconciliation contains no delete call:
deletion is never triggered by the reconciliation decision. -/
theorem reconcile_never_deletes (cfg : HetznerConfig) (env : WireEnv)
    (d : ConsulDnsRecord) :
    ((update_or_create_dns_record cfg env d).2.all fun c => !(isDeleteCall c)) = true := by
  unfold update_or_create_dns_record
  rcases hlist : list_dns_records cfg env.listResp with _ | res
  · rfl
  · rcases res with e2 | recs
    · rfl
    · dsimp only
      rcases hm : matchedRecord d recs with _ | r
      · rfl
      · dsimp only
        by_cases hc : (r.value != d.value || r.ttl != d.ttl) = true


        · rw [if_pos hc]; rfl
        · rw [if_neg hc]; rfl

/-- Witness for C9 at a concrete input. -/
theorem reconcile_never_deletes_witness :
    ((update_or_create_dns_record cfgEx (faithfulEnv [rStale] "9") dEx).2.all
        fun c => !(isDeleteCall c)) = true :=
  reconcile_never_deletes cfgEx (faithfulEnv [rStale] "9") dEx

/-- C10: with a token that is not a valid header value, listing panics
(an `unwrap` on the failed header construction), and therefore any
reconcile run panics after its list step; the other three operations
surface the same invalid token as a request-builder error at send time
instead of panicking. -/
theorem invalid_token_panics_only_in_list (cfg : HetznerConfig) (env : WireEnv)
    (d : ConsulDnsRecord) (u : DnsRecord) (c : DnsRecordCreate) (i : String)
    (resp : Except Unit HttpResponse)
    (hbad : validHeaderValue cfg.dns_token = false) :
    list_dns_records cfg env.listResp = ListOutcome.panicked ∧
    (update_or_create_dns_record cfg env d).1 = ReconcileOutcome.panicked ∧
    (update_or_create_dns_record cfg env d).2 = [Call.list] ∧
    update_dns_record cfg u resp = Except.error ProviderError.builder ∧
    create_dns_record cfg c resp = Except.error ProviderError.builder ∧
    delete_dns_record cfg i resp = Except.error ProviderError.builder := by
  have hlist : list_dns_records cfg env.listResp = ListOutcome.panicked := by
    simp [list_dns_records, hbad]
  refine ⟨hlist, ?_, ?_, ?_, ?_, ?_⟩
  · unfold update_or_create_dns_record
    rw [hlist]
  · unfold update_or_create_dns_record
    rw [hlist]
  · simp [update_dns_record, hbad]
  · simp [create_dns_record, hbad]
  · simp [delete_dns_record, hbad]

/-- Witness for C10: a token containing a newline byte. -/
theorem invalid_token_panics_only_in_list_witness :
    list_dns_records cfgBad envFail.listResp = ListOutcome.panicked ∧
    (update_or_create_dns_record cfgBad envFail dEx).1 = ReconcileOutcome.panicked ∧
    (update_or_create_dns_record cfgBad envFail dEx).2 = [Call.list] ∧
    update_dns_record cfgBad rStale (Except.error ()) = Except.error ProviderError.builder ∧
    create_dns_record cfgBad ⟨"zone1", "A", "h", "v", 60⟩ (Except.error ())
      = Except.error ProviderError.builder ∧
    delete_dns_record cfgBad "1" (Except.error ()) = Except.error ProviderError.builder :=
  invalid_token_panics_only_in_list cfgBad envFail dEx rStale ⟨"zone1", "A", "h", "v", 60⟩
    "1" (Except.error ()) (by decide)

/-- C4 (code evaluated at the failing input): the update operation skips
the status check — a 404 not-found response whose body parses as a record
response is returned as success — while list, create and delete all turn
the same non-success status into a hard error. -/
theorem update_skips_status_check :
    update_dns_record cfgEx rStale (Except.ok ⟨404, Body.recordJson rStale⟩)
      = Except.ok rStale ∧
    is_client_or_server_error 404 = true ∧
    list_dns_records cfgEx (Except.ok ⟨404, Body.recordsJson []⟩)
      = ListOutcome.completed (Except.error (ProviderError.rejected 404)) ∧
    create_dns_record cfgEx ⟨"zone1", "A", "h", "v", 60⟩
        (Except.ok ⟨404, Body.recordJson rStale⟩)
      = Except.error (ProviderError.rejected 404) ∧
    delete_dns_record cfgEx "1" (Except.ok ⟨404, Body.other⟩)
      = Except.error (ProviderError.rejected 404) := by
  decide

/-- Replacing, in a list, every record carrying the id of the first
`p`-match by a record `u` that itself satisfies `p` makes `u` the first
`p`-match of the resulting list. -/
lemma find?_replace_first_match (p : DnsRecord → Bool) (u : DnsRecord)
    (hu : p u = true) :
    ∀ (s : List DnsRecord) (r : DnsRecord), s.find? p = some r →
      (s.map fun x => if x.id == r.id then u else x).find? p = some u := by
  intro s
  induction s with
  | nil => intro r h; simp at h
  | cons x xs ih =>
    intro r h
    by_cases hx : p x = true
    · rw [List.find?_cons_of_pos xs hx] at h
      have hxr : x = r := by injection h
      subst hxr
      simp only [List.map_cons, beq_self_eq_true, if_true]
      exact List.find?_cons_of_pos _ hu
    · rw [List.find?_cons_of_neg xs hx] at h
      simp only [List.map_cons]
      by_cases hid : (x.id == r.id) = true
      · simp only [hid, if_true]
        exact List.find?_cons_of_pos _ hu
      · simp only [hid, if_false, Bool.false_eq_true]
        rw [List.find?_cons_of_neg _ hx]
        exact ih r h

/-- C7: reconciliation is idempotent: run reconcile against a faithful
provider holding record set `s0`, apply the calls of the issued trace to
the provider state, and run reconcile again for the same desired record
on the resulting state — the second run issues zero mutating calls, its
trace being the list call alone. -/
theorem reconcile_idempotent (cfg : HetznerConfig) (s0 : List DnsRecord)
    (d : ConsulDnsRecord) (fid : String)
    (hv : validHeaderValue cfg.dns_token = true) :
    (update_or_create_dns_record cfg
        (faithfulEnv
          (applyCalls fid s0 (update_or_create_dns_record cfg (faithfulEnv s0 fid) d).2)
          fid)
        d).2
      = [Call.list] := by
  have hlist1 := list_dns_records_faithful cfg s0 fid hv
  rcases hm : matchedRecord d s0 with _ | r
  · -- create path: the state gains the freshly created record at the end
    have htr : (update_or_create_dns_record cfg (faithfulEnv s0 fid) d).2
        = [Call.list,
           Call.create ⟨cfg.dns_zone_id, d.type_, d.hostname, d.value, d.ttl⟩] := by
      unfold update_or_create_dns_record
      rw [hlist1]
      dsimp only
      rw [hm]
    rw [htr]
    have hstate : applyCalls fid s0
        [Call.list, Call.create ⟨cfg.dns_zone_id, d.type_, d.hostname, d.value, d.ttl⟩]
        = s0 ++ [⟨fid, cfg.dns_zone_id, d.type_, d.hostname, d.value, d.ttl⟩] := rfl
    rw [hstate]
    have hm2 : matchedRecord d
        (s0 ++ [⟨fid, cfg.dns_zone_id, d.type_, d.hostname, d.value, d.ttl⟩])
        = some ⟨fid, cfg.dns_zone_id, d.type_, d.hostname, d.value, d.ttl⟩ := by
      rw [matchedRecord] at hm ⊢
      rw [List.find?_append, hm]
      simp
    unfold update_or_create_dns_record
    rw [list_dns_records_faithful cfg _ fid hv]
    dsimp only
    rw [hm2]
    simp
  · by_cases hc : (r.value != d.value || r.ttl != d.ttl) = true
    · -- update path: every record carrying the matched id is overwritten
      have htr : (update_or_create_dns_record cfg (faithfulEnv s0 fid) d).2
          = [Call.list,
             Call.update ⟨r.id, r.zone_id, d.type_, d.hostname, d.value, d.ttl⟩] := by
        unfold update_or_create_dns_record
        rw [hlist1]
        dsimp only
        rw [hm]
        dsimp only
        rw [if_pos hc]
      rw [htr]
      have hstate : applyCalls fid s0
          [Call.list, Call.update ⟨r.id, r.zone_id, d.type_, d.hostname, d.value, d.ttl⟩]
          = s0.map fun x =>
              if x.id == r.id then ⟨r.id, r.zone_id, d.type_, d.hostname, d.value, d.ttl⟩
              else x := rfl
      rw [hstate]
      have hm2 : matchedRecord d
          (s0.map fun x =>
            if x.id == r.id then ⟨r.id, r.zone_id, d.type_, d.hostname, d.value, d.ttl⟩
            else x)
          = some ⟨r.id, r.zone_id, d.type_, d.hostname, d.value, d.ttl⟩ := by
        rw [matchedRecord] at hm ⊢
        exact find?_replace_first_match _ _ (by simp) s0 r hm
      unfold update_or_create_dns_record
      rw [list_dns_records_faithful cfg _ fid hv]
      dsimp only
      rw [hm2]
      simp
    · -- no-op path: the state is unchanged and the same no-op repeats
      have htr : (update_or_create_dns_record cfg (faithfulEnv s0 fid) d).2
          = [Call.list] := by
        unfold update_or_create_dns_record
        rw [hlist1]
        dsimp only
        rw [hm]
        dsimp only
        rw [if_neg hc]
      rw [htr]
      have hstate : applyCalls fid s0 [Call.list] = s0 := rfl
      rw [hstate]
      unfold update_or_create_dns_record
      rw [hlist1]
      dsimp only
      rw [hm]
      dsimp only
      rw [if_neg hc]

/-- Witness for C7 at a concrete input (one stale record, hence an
update on the first run and a no-op on the second). -/
theorem reconcile_idempotent_witness :
    (update_or_create_dns_record cfgEx
        (faithfulEnv
          (applyCalls "9" [rStale]
            (update_or_create_dns_record cfgEx (faithfulEnv [rStale] "9") dEx).2)
          "9")
        dEx).2
      = [Call.list] :=
  reconcile_idempotent cfgEx [rStale] dEx "9" (by decide)

end ConsulExternalDns
